import Mathlib

/-!
Verification of the iterative research/merge loop of the `nfl-agent`
repository (package `nfl_agent`, module `src/tools/article_fetcher`).

The development shallowly embeds the Python code:

* `TeamInfo` (`src/models/espn_search.py`) — the accumulated team profile;
  `name` is a required string, `coaching_summary` an optional string, and
  the four list fields are optional lists of strings.
* `combine_team_info_logic` (`src/tools/article_fetcher/utils.py`, lines
  151–185) — the per-field merge of a partial profile into the accumulator.
  The Python iterates over the dumped field dictionary; since `TeamInfo`
  has exactly one required string field, one optional string field and four
  optional list fields (and no dict-typed fields), the generic loop is
  embedded as one merge function per field shape, each reproducing the
  branch order of the loop body: skip when the new value is empty, adopt
  when the old value is empty, otherwise combine.
* `should_continue` (`src/tools/article_fetcher/nodes.py`, lines 69–93) —
  the stop-condition evaluation, returning the strings "continue"/"end".
* `select_relevant_article` (`utils.py`, lines 63–84) — the external ranker
  is abstracted as a function argument; the final
  `next(article for article in articles if article.id == result.article_id)`
  is `List.find?`, with an exhausted generator (`StopIteration`) embedded
  as an `Except.error`.
* the fetch → summarize → combine segment of the LangGraph workflow
  (`tool.py` / `nodes.py`) — exceptions raised by the content fetcher or
  the summarizer are embedded as `Except.error` values; the graph installs
  no handler, so an error short-circuits the iteration.
-/

/-- Python `_is_empty` (utils.py lines 143–148) specialised to an optional
string: `None` or the empty string. -/
def isEmptyOptStr : Option String → Bool
  | none => true
  | some s => s.length == 0

/-- Python `_is_empty` specialised to an optional list: `None` or the empty
list. -/
def isEmptyOptList : Option (List String) → Bool
  | none => true
  | some l => l.length == 0

/-- The `TeamInfo` pydantic model (`src/models/espn_search.py`): `name` is a
required string, every other field defaults to `None`. The same model plays
both roles of the spec: accumulated TeamProfile and per-iteration
PartialProfile. -/
structure TeamInfo where
  name : String
  coaching_summary : Option String
  injuries : Option (List String)
  strengths : Option (List String)
  problem_areas : Option (List String)
  relevant_players : Option (List String)
deriving DecidableEq, Repr

/-- Merge rule of `combine_team_info_logic` for the required string field
`name`: skip an empty new value, adopt over an empty old value, and for two
non-empty strings concatenate with a blank line when they differ. -/
def mergeStr (o n : String) : String :=
  if n.length == 0 then o
  else if o.length == 0 then n
  else if n == o then o
  else o ++ "\n\n" ++ n

/-- Merge rule of `combine_team_info_logic` for the optional string field
`coaching_summary` (same branch order as the Python loop body). -/
def mergeOptStr (o n : Option String) : Option String :=
  if isEmptyOptStr n then o
  else if isEmptyOptStr o then n
  else match o, n with
    | some os, some ns => if ns == os then some os else some (os ++ "\n\n" ++ ns)
    | _, _ => o

/-- Merge rule of `combine_team_info_logic` for the optional list fields:
skip an empty new list, adopt over an empty old list, otherwise
`old_value + [item for item in new_value if item not in old_value]`. -/
def mergeOptList (o n : Option (List String)) : Option (List String) :=
  if isEmptyOptList n then o
  else if isEmptyOptList o then n
  else match o, n with
    | some ol, some nl => some (ol ++ nl.filter (fun x => decide (x ∉ ol)))
    | _, _ => o

/-- The merge `combine_team_info_logic(old_team_info, new_team_info)`
(utils.py lines 151–185): `None` old profile returns the new one; otherwise
each field of the dumped dictionaries is merged by the rule for its shape. -/
def combine_team_info_logic (old : Option TeamInfo) (new : TeamInfo) : TeamInfo :=
  match old with
  | none => new
  | some o =>
      { name := mergeStr o.name new.name
        coaching_summary := mergeOptStr o.coaching_summary new.coaching_summary
        injuries := mergeOptList o.injuries new.injuries
        strengths := mergeOptList o.strengths new.strengths
        problem_areas := mergeOptList o.problem_areas new.problem_areas
        relevant_players := mergeOptList o.relevant_players new.relevant_players }

/-- Constant `MIN_ARTICLES_TO_READ` of nodes.py. -/
def MIN_ARTICLES_TO_READ : Nat := 5

/-- Constant `MAX_ARTICLES_TO_READ` of nodes.py. -/
def MAX_ARTICLES_TO_READ : Nat := 10

/-- The stop-condition evaluation `should_continue(state)` (nodes.py lines
69–93), as a function of the two state components it reads. It returns the
edge labels "continue"/"end" of the LangGraph conditional edge. Note the
source tests `team_info.coaching_summary is None` (only `None`, not the
empty string) but `field is None or len(field) == 0` for each list field. -/
def should_continue (articles_read_count : Nat) (team_info : Option TeamInfo) : String :=
  if articles_read_count < MIN_ARTICLES_TO_READ then "continue"
  else if articles_read_count > MAX_ARTICLES_TO_READ then "end"
  else match team_info with
    | none => "continue"
    | some ti =>
        if ti.coaching_summary.isNone then "continue"
        else if isEmptyOptList ti.injuries then "continue"
        else if isEmptyOptList ti.strengths then "continue"
        else if isEmptyOptList ti.problem_areas then "continue"
        else if isEmptyOptList ti.relevant_players then "continue"
        else "end"

/-- Article record from ESPN search (`src/models/espn_search.py`), reduced to
the fields the research loop reads: the numeric id (used for selection and
pool removal) and the description data handed to the ranking model. -/
structure ESPNSearchArticle where
  id : Int
  headline : String
  description : Option String
deriving DecidableEq, Repr

/-- Exceptions that can escape the loop's node functions, named after the
Python exception that is raised. -/
inductive RunError where
  | stopIteration
  | httpError
  | valueError
  | rateLimitExhausted
deriving DecidableEq, Repr

/-- The selection step `select_relevant_article(team_name, articles)`
(utils.py lines 63–84). The external structured-output model call is
abstracted as the function `ranker`, which is always invoked (the source has
no emptiness check before `model.invoke`); the trailing
`next(article for article in articles if article.id == result.article_id)`
raises `StopIteration` when no candidate carries the returned id. -/
def select_relevant_article
    (ranker : String → List ESPNSearchArticle → Int)
    (team_name : String) (articles : List ESPNSearchArticle) :
    Except RunError ESPNSearchArticle :=
  let rid := ranker team_name articles
  match articles.find? (fun a => a.id == rid) with
  | some a => Except.ok a
  | none => Except.error RunError.stopIteration

/-- The node `node_get_article_relevance(state)` (nodes.py lines 27–34): the
selection's exception propagates (no handler); on success the selected
article is removed from the pool by id. -/
def node_get_article_relevance
    (ranker : String → List ESPNSearchArticle → Int)
    (team_name : String) (articles : List ESPNSearchArticle) :
    Except RunError (ESPNSearchArticle × List ESPNSearchArticle) :=
  match select_relevant_article ranker team_name articles with
  | Except.error e => Except.error e
  | Except.ok a => Except.ok (a, articles.filter (fun b => !(b.id == a.id)))

/-- The loop-state components touched by one fetch → summarize → combine
iteration of the graph. -/
structure LoopState where
  team_info : Option TeamInfo
  articles_read_count : Nat
deriving DecidableEq, Repr

/-- One pass through the graph segment `fetch_content → summarize_content →
combine_team_info` (tool.py lines 38–48, nodes.py lines 43–66) for an
already-selected article. The content fetch's outcome is the `fetchResult`
argument (`fetch_article_content` may raise for network or extraction
failure), the summarizer is `extract` (may raise after retry exhaustion).
Neither node nor the graph catches exceptions, so an error short-circuits
the iteration: no merge, no count increment, no stop-condition evaluation. -/
def run_iteration
    (fetchResult : Except RunError String)
    (extract : String → Except RunError TeamInfo)
    (s : LoopState) : Except RunError LoopState :=
  match fetchResult with
  | Except.error e => Except.error e
  | Except.ok content =>
      match extract content with
      | Except.error e => Except.error e
      | Except.ok newInfo =>
          Except.ok
            { team_info := some (combine_team_info_logic s.team_info newInfo)
              articles_read_count := s.articles_read_count + 1 }

/-- The routing function `should_fetch_article(state)` (nodes.py lines
37–40). -/
def should_fetch_article (selected_article : Option ESPNSearchArticle) : String :=
  match selected_article with
  | none => "skip"
  | some _ => "fetch"

example : mergeOptList (some ["A", "B"]) (some ["B", "C"]) = some ["A", "B", "C"] := by decide

example : mergeStr "A" "B" = "A\n\nB" := by decide

example : should_continue 5 none = "continue" := by decide

/-! ### Helper lemmas about the merge rules -/

theorem isEmptyOptList_eq_false_iff (o : Option (List String)) :
    isEmptyOptList o = false ↔ o.getD [] ≠ [] := by
  cases o with
  | none => simp [isEmptyOptList]
  | some l => simp [isEmptyOptList, List.length_eq_zero]

theorem mergeOptList_some_some (ol nl : List String) (hol : ol ≠ []) (hnl : nl ≠ []) :
    mergeOptList (some ol) (some nl)
      = some (ol ++ nl.filter (fun x => decide (x ∉ ol))) := by
  have h1 : (nl.length == 0) = false := by simp [List.length_eq_zero, hnl]
  have h2 : (ol.length == 0) = false := by simp [List.length_eq_zero, hol]
  simp [mergeOptList, isEmptyOptList, h1, h2]

theorem mergeOptList_length_mono (o n : Option (List String)) :
    (o.getD []).length ≤ ((mergeOptList o n).getD []).length := by
  cases n with
  | none => simp [mergeOptList, isEmptyOptList]
  | some nl =>
    by_cases hn : nl.length = 0
    · simp [mergeOptList, isEmptyOptList, hn]
    · cases o with
      | none => simp [mergeOptList, isEmptyOptList, hn]
      | some ol =>
        by_cases ho : ol.length = 0
        · have : ol = [] := List.length_eq_zero.mp ho
          simp [mergeOptList, isEmptyOptList, hn, ho, this]
        · simp [mergeOptList, isEmptyOptList, hn, ho]

theorem mergeOptList_idem (o n : Option (List String)) :
    mergeOptList (mergeOptList o n) n = mergeOptList o n := by
  cases n with
  | none => simp [mergeOptList, isEmptyOptList]
  | some nl =>
    by_cases hn : nl.length = 0
    · simp [mergeOptList, isEmptyOptList, hn]
    · have hnl : nl ≠ [] := fun h => hn (by simp [h])
      have key : ∀ l : List String, (∀ x ∈ nl, x ∈ l) → l ≠ [] →
          mergeOptList (some l) (some nl) = some l := by
        intro l hsub hl
        have hfil : nl.filter (fun x => decide (x ∉ l)) = [] := by
          apply List.filter_eq_nil_iff.mpr
          intro a ha
          simp [hsub a ha]
        rw [mergeOptList_some_some l nl hl hnl, hfil, List.append_nil]
      cases o with
      | none =>
        have h1 : mergeOptList none (some nl) = some nl := by
          simp [mergeOptList, isEmptyOptList, hn]
        rw [h1]
        exact key nl (fun x hx => hx) hnl
      | some ol =>
        by_cases ho : ol.length = 0
        · have h1 : mergeOptList (some ol) (some nl) = some nl := by
            simp [mergeOptList, isEmptyOptList, hn, ho]
          rw [h1]
          exact key nl (fun x hx => hx) hnl
        · have hol : ol ≠ [] := fun h => ho (by simp [h])
          rw [mergeOptList_some_some ol nl hol hnl]
          apply key
          · intro x hx
            by_cases hxo : x ∈ ol
            · exact List.mem_append.mpr (Or.inl hxo)
            · exact List.mem_append.mpr (Or.inr (by simp [List.mem_filter, hx, hxo]))
          · intro h
            exact hol (List.append_eq_nil.mp h).1

theorem mergeOptList_nodup (o n : Option (List String))
    (ho : (o.getD []).Nodup) (hn : (n.getD []).Nodup) :
    ((mergeOptList o n).getD []).Nodup := by
  cases n with
  | none => simpa [mergeOptList, isEmptyOptList] using ho
  | some nl =>
    by_cases hln : nl.length = 0
    · simpa [mergeOptList, isEmptyOptList, hln] using ho
    · cases o with
      | none => simpa [mergeOptList, isEmptyOptList, hln] using hn
      | some ol =>
        by_cases hlo : ol.length = 0
        · simpa [mergeOptList, isEmptyOptList, hln, hlo] using hn
        · have hol : ol ≠ [] := fun h => hlo (by simp [h])
          have hnl : nl ≠ [] := fun h => hln (by simp [h])
          rw [mergeOptList_some_some ol nl hol hnl]
          simp only [Option.getD_some] at ho hn ⊢
          refine List.Nodup.append ho (hn.filter _) ?_
          intro a hao haf
          have hp := List.of_mem_filter haf
          simp only [decide_eq_true_eq] at hp
          exact hp hao

theorem mergeStr_empty_right (o : String) : mergeStr o "" = o := rfl

theorem mergeStr_self (o : String) : mergeStr o o = o := by
  by_cases h : o.length = 0 <;> simp [mergeStr, h]

theorem mergeOptStr_self (o : Option String) : mergeOptStr o o = o := by
  cases o with
  | none => simp [mergeOptStr, isEmptyOptStr]
  | some s =>
    by_cases h : s.length = 0 <;> simp [mergeOptStr, isEmptyOptStr, h]

theorem mergeOptList_self (o : Option (List String)) : mergeOptList o o = o := by
  cases o with
  | none => simp [mergeOptList, isEmptyOptList]
  | some l =>
    by_cases h : l.length = 0
    · simp [mergeOptList, isEmptyOptList, h]
    · have hl : l ≠ [] := fun he => h (by simp [he])
      have hfil : l.filter (fun x => decide (x ∉ l)) = [] := by
        apply List.filter_eq_nil_iff.mpr
        intro a ha
        simp [ha]
      rw [mergeOptList_some_some l l hl hl, hfil, List.append_nil]

theorem mergeStr_idem_of (o n : String) (h : n = "" ∨ o = "" ∨ n = o) :
    mergeStr (mergeStr o n) n = mergeStr o n := by
  rcases h with h | h | h
  · subst h
    rw [mergeStr_empty_right, mergeStr_empty_right]
  · subst h
    by_cases hn : n.length = 0
    · have h1 : mergeStr "" n = "" := by simp [mergeStr, hn]
      rw [h1, h1]
    · have h1 : mergeStr "" n = n := by simp [mergeStr, hn]
      rw [h1, mergeStr_self]
  · subst h
    simp [mergeStr_self]

theorem mergeOptStr_idem_of (o n : Option String)
    (h : isEmptyOptStr n = true ∨ isEmptyOptStr o = true ∨ n = o) :
    mergeOptStr (mergeOptStr o n) n = mergeOptStr o n := by
  by_cases hn : isEmptyOptStr n = true
  · simp [mergeOptStr, hn]
  · have hnb : isEmptyOptStr n = false := by simpa using hn
    rcases h with h | ho | h
    · exact absurd h hn
    · have h1 : mergeOptStr o n = n := by
        simp [mergeOptStr, hnb, ho]
      rw [h1, mergeOptStr_self]
    · subst h
      simp [mergeOptStr_self]

theorem TeamInfo.ext' (A B : TeamInfo)
    (h1 : A.name = B.name) (h2 : A.coaching_summary = B.coaching_summary)
    (h3 : A.injuries = B.injuries) (h4 : A.strengths = B.strengths)
    (h5 : A.problem_areas = B.problem_areas)
    (h6 : A.relevant_players = B.relevant_players) : A = B := by
  cases A; cases B
  simp only at h1 h2 h3 h4 h5 h6
  subst h1; subst h2; subst h3; subst h4; subst h5; subst h6
  rfl

/-- The completeness test applied by `should_continue` once the iteration
bounds allow it (the cascade of nodes.py lines 78–91 folded into one Bool):
non-`None` coaching summary and four non-`None`, non-empty list fields. -/
def profile_complete_check : Option TeamInfo → Bool
  | none => false
  | some ti =>
      !ti.coaching_summary.isNone && !isEmptyOptList ti.injuries &&
      !isEmptyOptList ti.strengths && !isEmptyOptList ti.problem_areas &&
      !isEmptyOptList ti.relevant_players

theorem should_continue_mid (c : Nat) (t : Option TeamInfo)
    (h1 : 5 ≤ c) (h2 : c ≤ 10) :
    should_continue c t = if profile_complete_check t then "end" else "continue" := by
  have h5 : ¬ c < MIN_ARTICLES_TO_READ := by unfold MIN_ARTICLES_TO_READ; omega
  have h10 : ¬ c > MAX_ARTICLES_TO_READ := by unfold MAX_ARTICLES_TO_READ; omega
  unfold should_continue
  rw [if_neg h5, if_neg h10]
  cases t with
  | none => simp [profile_complete_check]
  | some ti =>
    by_cases hcs : ti.coaching_summary.isNone = true <;>
      by_cases hi : isEmptyOptList ti.injuries = true <;>
      by_cases hs : isEmptyOptList ti.strengths = true <;>
      by_cases hp : isEmptyOptList ti.problem_areas = true <;>
      by_cases hr : isEmptyOptList ti.relevant_players = true <;>
      simp [profile_complete_check, hcs, hi, hs, hp, hr]

theorem profile_complete_check_iff (t : Option TeamInfo) :
    profile_complete_check t = true ↔
      ∃ ti, t = some ti ∧ ti.coaching_summary ≠ none ∧
        ti.injuries.getD [] ≠ [] ∧ ti.strengths.getD [] ≠ [] ∧
        ti.problem_areas.getD [] ≠ [] ∧ ti.relevant_players.getD [] ≠ [] := by
  have hfield : ∀ o : Option (List String),
      ((!isEmptyOptList o) = true ↔ o.getD [] ≠ []) := by
    intro o
    rw [Bool.not_eq_true']
    exact isEmptyOptList_eq_false_iff o
  cases t with
  | none => simp [profile_complete_check]
  | some ti =>
    have hcs : ((!ti.coaching_summary.isNone) = true ↔ ti.coaching_summary ≠ none) := by
      cases h : ti.coaching_summary <;> simp [h]
    constructor
    · intro h
      simp only [profile_complete_check, Bool.and_eq_true] at h
      obtain ⟨⟨⟨⟨hc, h2⟩, h3⟩, h4⟩, h5⟩ := h
      exact ⟨ti, rfl, hcs.mp hc, (hfield _).mp h2, (hfield _).mp h3,
        (hfield _).mp h4, (hfield _).mp h5⟩
    · rintro ⟨ti', hti, hc, h2, h3, h4, h5⟩
      simp only [Option.some.injEq] at hti
      subst hti
      simp only [profile_complete_check, Bool.and_eq_true]
      exact ⟨⟨⟨⟨hcs.mpr hc, (hfield _).mpr h2⟩, (hfield _).mpr h3⟩,
        (hfield _).mpr h4⟩, (hfield _).mpr h5⟩

/-! ### Claim theorems -/

/-- C10: the iteration bounds are checked first and in order: below
`MIN_ARTICLES_TO_READ` (5) the evaluation always continues, above
`MAX_ARTICLES_TO_READ` (10) it always ends, for any count up to 10 an
incomplete profile always continues, and at count 11 every run ends —
so a never-complete run terminates exactly when the count reaches 11. -/
theorem stop_condition_bounds :
    (∀ (c : Nat) (t : Option TeamInfo), c < 5 → should_continue c t = "continue") ∧
    (∀ (c : Nat) (t : Option TeamInfo), 10 < c → should_continue c t = "end") ∧
    (∀ (c : Nat) (t : Option TeamInfo), c ≤ 10 → profile_complete_check t = false →
        should_continue c t = "continue") ∧
    (∀ t : Option TeamInfo, should_continue 11 t = "end") := by
  refine ⟨?_, ?_, ?_, ?_⟩
  · intro c t h
    unfold should_continue
    rw [if_pos (show c < MIN_ARTICLES_TO_READ by unfold MIN_ARTICLES_TO_READ; omega)]
  · intro c t h
    unfold should_continue
    rw [if_neg (show ¬ c < MIN_ARTICLES_TO_READ by unfold MIN_ARTICLES_TO_READ; omega),
      if_pos (show c > MAX_ARTICLES_TO_READ by unfold MAX_ARTICLES_TO_READ; omega)]
  · intro c t hc hp
    by_cases h5 : c < 5
    · unfold should_continue
      rw [if_pos (show c < MIN_ARTICLES_TO_READ by unfold MIN_ARTICLES_TO_READ; omega)]
    · rw [should_continue_mid c t (by omega) hc]
      simp [hp]
  · intro t
    unfold should_continue
    rw [if_neg (show ¬ 11 < MIN_ARTICLES_TO_READ by unfold MIN_ARTICLES_TO_READ; omega),
      if_pos (show 11 > MAX_ARTICLES_TO_READ by unfold MAX_ARTICLES_TO_READ; omega)]

/-- Witness for C10, instantiating each bound at a concrete count. -/
theorem stop_condition_bounds_witness :
    should_continue 3 none = "continue" ∧ should_continue 12 none = "end" ∧
    should_continue 7 none = "continue" ∧ should_continue 11 none = "end" :=
  ⟨stop_condition_bounds.1 3 none (by decide),
   stop_condition_bounds.2.1 12 none (by decide),
   stop_condition_bounds.2.2.1 7 none (by decide) (by decide),
   stop_condition_bounds.2.2.2 none⟩

/-- C1 (amended): with the count between 5 and 10 inclusive,
`should_continue` returns "end" exactly when the accumulated profile exists,
its `coaching_summary` is not `None` — the source does not test for the
empty string — and all four list fields are non-`None` and non-empty; in
every other case it returns "continue". -/
theorem stop_condition_completeness_iff (c : Nat) (t : Option TeamInfo)
    (h1 : 5 ≤ c) (h2 : c ≤ 10) :
    (should_continue c t = "end" ↔
      ∃ ti, t = some ti ∧ ti.coaching_summary ≠ none ∧
        ti.injuries.getD [] ≠ [] ∧ ti.strengths.getD [] ≠ [] ∧
        ti.problem_areas.getD [] ≠ [] ∧ ti.relevant_players.getD [] ≠ []) ∧
    (should_continue c t = "continue" ↔
      ¬ ∃ ti, t = some ti ∧ ti.coaching_summary ≠ none ∧
        ti.injuries.getD [] ≠ [] ∧ ti.strengths.getD [] ≠ [] ∧
        ti.problem_areas.getD [] ≠ [] ∧ ti.relevant_players.getD [] ≠ []) := by
  rw [should_continue_mid c t h1 h2, ← profile_complete_check_iff]
  by_cases h : profile_complete_check t = true
  · constructor <;> simp [h]
  · constructor <;> simp [h]

/-- An accumulated profile satisfying every completeness test of
`should_continue`. -/
def team_info_complete : TeamInfo :=
  { name := "Eagles", coaching_summary := some "zone blitz heavy",
    injuries := some ["QB out"], strengths := some ["run game"],
    problem_areas := some ["secondary"], relevant_players := some ["QB1"] }

/-- Witness for C1 (amended), at count 5 with a complete profile. -/
theorem stop_condition_completeness_iff_witness :
    should_continue 5 (some team_info_complete) = "end" :=
  ((stop_condition_completeness_iff 5 (some team_info_complete)
      (by decide) (by decide)).1).mpr
    ⟨team_info_complete, rfl, by decide, by decide, by decide, by decide, by decide⟩

/-- An accumulated profile whose coaching summary is the empty string (not
`None`) while all four list fields are non-empty. -/
def team_info_empty_summary : TeamInfo :=
  { name := "Eagles", coaching_summary := some "",
    injuries := some ["QB out"], strengths := some ["run game"],
    problem_areas := some ["secondary"], relevant_players := some ["QB1"] }

/-- Counterexample to C1 as stated: at count 5, a profile with an
empty-string (non-`None`) coaching summary and non-empty list fields makes
`should_continue` return "end", where the claim requires "continue". -/
theorem stop_condition_empty_summary_cex :
    team_info_empty_summary.coaching_summary = some "" ∧
    should_continue 5 (some team_info_empty_summary) = "end" ∧
    should_continue 5 (some team_info_empty_summary) ≠ "continue" := by
  refine ⟨rfl, by decide, by decide⟩

/-- C2 (amended): re-applying the same partial profile is idempotent on all
four list fields for every pair of profiles, and on the whole profile
whenever, for each string field (`name`, `coaching_summary`), the two values
are not simultaneously non-empty and different; a `None` accumulator is also
always idempotent. The string fields break idempotence in general because
the merge concatenates differing values, and the concatenation differs from
the incoming value again on the next round. -/
theorem combine_idem_amended :
    (∀ (P Q : TeamInfo),
        (combine_team_info_logic (some (combine_team_info_logic (some P) Q)) Q).injuries
            = (combine_team_info_logic (some P) Q).injuries ∧
        (combine_team_info_logic (some (combine_team_info_logic (some P) Q)) Q).strengths
            = (combine_team_info_logic (some P) Q).strengths ∧
        (combine_team_info_logic (some (combine_team_info_logic (some P) Q)) Q).problem_areas
            = (combine_team_info_logic (some P) Q).problem_areas ∧
        (combine_team_info_logic (some (combine_team_info_logic (some P) Q)) Q).relevant_players
            = (combine_team_info_logic (some P) Q).relevant_players) ∧
    (∀ (P Q : TeamInfo),
        (Q.name = "" ∨ P.name = "" ∨ Q.name = P.name) →
        (isEmptyOptStr Q.coaching_summary = true ∨ isEmptyOptStr P.coaching_summary = true ∨
            Q.coaching_summary = P.coaching_summary) →
        combine_team_info_logic (some (combine_team_info_logic (some P) Q)) Q
          = combine_team_info_logic (some P) Q) ∧
    (∀ Q : TeamInfo,
        combine_team_info_logic (some (combine_team_info_logic none Q)) Q
          = combine_team_info_logic none Q) := by
  refine ⟨?_, ?_, ?_⟩
  · intro P Q
    exact ⟨mergeOptList_idem _ _, mergeOptList_idem _ _,
      mergeOptList_idem _ _, mergeOptList_idem _ _⟩
  · intro P Q hname hcs
    apply TeamInfo.ext'
    · exact mergeStr_idem_of P.name Q.name hname
    · exact mergeOptStr_idem_of P.coaching_summary Q.coaching_summary hcs
    · exact mergeOptList_idem _ _
    · exact mergeOptList_idem _ _
    · exact mergeOptList_idem _ _
    · exact mergeOptList_idem _ _
  · intro Q
    show combine_team_info_logic (some Q) Q = Q
    apply TeamInfo.ext'
    · exact mergeStr_self Q.name
    · exact mergeOptStr_self Q.coaching_summary
    · exact mergeOptList_self Q.injuries
    · exact mergeOptList_self Q.strengths
    · exact mergeOptList_self Q.problem_areas
    · exact mergeOptList_self Q.relevant_players

/-- A partial profile carrying the same name and coaching summary as
`team_info_complete` plus a new injury. -/
def partial_same_name : TeamInfo :=
  { name := "Eagles", coaching_summary := some "zone blitz heavy",
    injuries := some ["WR day-to-day"], strengths := none,
    problem_areas := none, relevant_players := none }

/-- Witness for C2 (amended), at a pair whose string fields agree. -/
theorem combine_idem_amended_witness :
    combine_team_info_logic
        (some (combine_team_info_logic (some team_info_complete) partial_same_name))
        partial_same_name
      = combine_team_info_logic (some team_info_complete) partial_same_name :=
  combine_idem_amended.2.1 team_info_complete partial_same_name
    (Or.inr (Or.inr rfl)) (Or.inr (Or.inr rfl))

/-- An accumulator whose coaching summary is "X". -/
def profile_sum_X : TeamInfo :=
  { name := "Eagles", coaching_summary := some "X", injuries := none,
    strengths := none, problem_areas := none, relevant_players := none }

/-- A partial profile whose coaching summary is "Y". -/
def partial_sum_Y : TeamInfo :=
  { name := "Eagles", coaching_summary := some "Y", injuries := none,
    strengths := none, problem_areas := none, relevant_players := none }

/-- Counterexample to C2 as stated: merging the partial profile with summary
"Y" into the profile with summary "X" gives "X\n\nY", and re-applying the
identical partial profile grows it again to "X\n\nY\n\nY", so
merge(merge(P, Q), Q) differs from merge(P, Q). -/
theorem combine_idem_cex :
    (combine_team_info_logic (some profile_sum_X) partial_sum_Y).coaching_summary
        = some "X\n\nY" ∧
    (combine_team_info_logic
        (some (combine_team_info_logic (some profile_sum_X) partial_sum_Y))
        partial_sum_Y).coaching_summary = some "X\n\nY\n\nY" ∧
    combine_team_info_logic
        (some (combine_team_info_logic (some profile_sum_X) partial_sum_Y))
        partial_sum_Y
      ≠ combine_team_info_logic (some profile_sum_X) partial_sum_Y := by
  refine ⟨by decide, by decide, by decide⟩

/-- C3 (amended): the merged profile keeps the old `name` whenever the
incoming partial profile's `name` equals it or is empty; with two differing
non-empty names the merge concatenates them instead, so `name` is not
unconditionally immutable. -/
theorem combine_name_preserved_of (o n : TeamInfo)
    (h : n.name = o.name ∨ n.name = "") :
    (combine_team_info_logic (some o) n).name = o.name := by
  show mergeStr o.name n.name = o.name
  rcases h with h | h
  · rw [h, mergeStr_self]
  · rw [h, mergeStr_empty_right]

/-- Witness for C3 (amended), at a pair with equal names. -/
theorem combine_name_preserved_of_witness :
    (combine_team_info_logic (some team_info_complete) partial_same_name).name
      = team_info_complete.name :=
  combine_name_preserved_of team_info_complete partial_same_name (Or.inl rfl)

/-- An accumulator named "A". -/
def profile_name_A : TeamInfo :=
  { name := "A", coaching_summary := none, injuries := none,
    strengths := none, problem_areas := none, relevant_players := none }

/-- A partial profile named "B". -/
def partial_name_B : TeamInfo :=
  { name := "B", coaching_summary := none, injuries := none,
    strengths := none, problem_areas := none, relevant_players := none }

/-- Counterexample to C3 as stated: merging a partial profile named "B" into
a profile named "A" changes the accumulated name to "A\n\nB". -/
theorem combine_name_cex :
    (combine_team_info_logic (some profile_name_A) partial_name_B).name = "A\n\nB" ∧
    (combine_team_info_logic (some profile_name_A) partial_name_B).name
      ≠ profile_name_A.name := by
  refine ⟨by decide, by decide⟩

/-- C4 (amended): a content-fetch or extraction failure is fatal to the run:
the fetch → summarize → combine segment installs no handler, so the raised
exception short-circuits the iteration — no merge happens, the count is not
incremented, the stop condition is never evaluated, and the error propagates
out of the graph invocation. -/
theorem iteration_failure_short_circuits :
    (∀ (e : RunError) (extract : String → Except RunError TeamInfo) (s : LoopState),
        run_iteration (Except.error e) extract s = Except.error e) ∧
    (∀ (content : String) (e : RunError) (s : LoopState),
        run_iteration (Except.ok content) (fun _ => Except.error e) s
          = Except.error e) :=
  ⟨fun _ _ _ => rfl, fun _ _ _ => rfl⟩

/-- The empty loop state at the start of a run. -/
def loop_state_start : LoopState :=
  { team_info := none, articles_read_count := 0 }

/-- A summarizer stub that always succeeds. -/
def extract_stub : String → Except RunError TeamInfo :=
  fun _ => Except.ok partial_sum_Y

/-- Counterexample to C4 as stated: with the content fetch raising an HTTP
error, the iteration yields that error rather than any successor state — in
particular not the state with `articles_read_count` incremented to 1 that
the claim requires, so the loop never reaches the stop-condition
evaluation. -/
theorem iteration_failure_cex :
    run_iteration (Except.error RunError.httpError) extract_stub loop_state_start
        = Except.error RunError.httpError ∧
    run_iteration (Except.error RunError.httpError) extract_stub loop_state_start
        ≠ Except.ok { team_info := loop_state_start.team_info, articles_read_count := 1 } :=
  ⟨rfl, fun h => Except.noConfusion h⟩

/-- C5: if the ranking model returns an id matching no candidate, the
selection raises (the `StopIteration` of the defaultless `next`, the spec's
`SelectionError`) and the node propagates it unchanged; and whenever
selection succeeds, the returned article is one of the candidates and
carries exactly the ranker's id — no silent substitution. -/
theorem selection_contract_violation_raises
    (ranker : String → List ESPNSearchArticle → Int)
    (team_name : String) (articles : List ESPNSearchArticle) :
    ((∀ a ∈ articles, a.id ≠ ranker team_name articles) →
        select_relevant_article ranker team_name articles
            = Except.error RunError.stopIteration ∧
        node_get_article_relevance ranker team_name articles
            = Except.error RunError.stopIteration) ∧
    (∀ a, select_relevant_article ranker team_name articles = Except.ok a →
        a ∈ articles ∧ a.id = ranker team_name articles) := by
  constructor
  · intro h
    have hfind : articles.find? (fun a => a.id == ranker team_name articles) = none := by
      apply List.find?_eq_none.mpr
      intro a ha
      simpa using h a ha
    constructor
    · simp [select_relevant_article, hfind]
    · simp [node_get_article_relevance, select_relevant_article, hfind]
  · intro a ha
    cases hfind : articles.find? (fun x => x.id == ranker team_name articles) with
    | none =>
      simp [select_relevant_article, hfind] at ha
    | some b =>
      simp [select_relevant_article, hfind] at ha
      subst ha
      refine ⟨List.mem_of_find?_eq_some hfind, ?_⟩
      have hb := List.find?_some hfind
      simpa using hb

/-- A one-article candidate pool for the selection witnesses. -/
def article_one : ESPNSearchArticle :=
  { id := 1, headline := "headline", description := none }

/-- Witness for C5, with a ranker that returns the absent id 2 against a
pool holding only id 1. -/
theorem selection_contract_violation_raises_witness :
    select_relevant_article (fun _ _ => 2) "Eagles" [article_one]
        = Except.error RunError.stopIteration ∧
    node_get_article_relevance (fun _ _ => 2) "Eagles" [article_one]
        = Except.error RunError.stopIteration :=
  (selection_contract_violation_raises (fun _ _ => 2) "Eagles" [article_one]).1
    (by decide)

/-- C6 (amended): on an empty candidate pool the selection still invokes the
ranking model (the source has no emptiness check) and then raises
`StopIteration`, since no candidate can match the returned id; it never
returns a `None`-like success, so the "no articles left" edge of
`should_fetch_article` is never reached through the selector. -/
theorem empty_pool_selection_raises
    (ranker : String → List ESPNSearchArticle → Int) (team_name : String) :
    select_relevant_article ranker team_name [] = Except.error RunError.stopIteration ∧
    node_get_article_relevance ranker team_name [] = Except.error RunError.stopIteration ∧
    (∀ a : ESPNSearchArticle,
        select_relevant_article ranker team_name [] ≠ Except.ok a) :=
  ⟨rfl, rfl, fun _ h => Except.noConfusion h⟩

/-- Counterexample to C6 as stated: at the concrete empty pool the selection
evaluates to the propagated `StopIteration` error — an aborted run — not to
a `None` result that would steer the loop onto the termination edge. -/
theorem empty_pool_cex :
    select_relevant_article (fun _ _ => 7) "Eagles" [] = Except.error RunError.stopIteration ∧
    node_get_article_relevance (fun _ _ => 7) "Eagles" [] = Except.error RunError.stopIteration :=
  ⟨rfl, rfl⟩

/-- C7: when both sides of a list field are non-empty, the merged list is
the old list in order followed by exactly the new items not already present,
in the new list's order, with membership decided by exact (case-sensitive)
string equality; each list field of the merge is computed this way, the
spec's example gives exactly ["A", "B", "C"], and "a" does not absorb
"A". -/
theorem merge_list_order_preserving :
    (∀ (ol nl : List String), ol ≠ [] → nl ≠ [] →
        mergeOptList (some ol) (some nl)
          = some (ol ++ nl.filter (fun x => decide (x ∉ ol)))) ∧
    (∀ (P Q : TeamInfo),
        (combine_team_info_logic (some P) Q).injuries
            = mergeOptList P.injuries Q.injuries ∧
        (combine_team_info_logic (some P) Q).strengths
            = mergeOptList P.strengths Q.strengths ∧
        (combine_team_info_logic (some P) Q).problem_areas
            = mergeOptList P.problem_areas Q.problem_areas ∧
        (combine_team_info_logic (some P) Q).relevant_players
            = mergeOptList P.relevant_players Q.relevant_players) ∧
    mergeOptList (some ["A", "B"]) (some ["B", "C"]) = some ["A", "B", "C"] ∧
    mergeOptList (some ["a"]) (some ["A"]) = some ["a", "A"] :=
  ⟨mergeOptList_some_some, fun P Q => ⟨rfl, rfl, rfl, rfl⟩, by decide, by decide⟩

/-- Witness for C7, at two concrete non-empty singleton lists. -/
theorem merge_list_order_preserving_witness :
    mergeOptList (some ["A"]) (some ["B"])
      = some (["A"] ++ ["B"].filter (fun x => decide (x ∉ ["A"]))) :=
  merge_list_order_preserving.1 ["A"] ["B"] (by decide) (by decide)

/-- C8: every list field of the merge is at least as long as the
corresponding field of the old profile — merges only ever add items. -/
theorem merge_list_fields_monotone (P Q : TeamInfo) :
    (P.injuries.getD []).length
        ≤ ((combine_team_info_logic (some P) Q).injuries.getD []).length ∧
    (P.strengths.getD []).length
        ≤ ((combine_team_info_logic (some P) Q).strengths.getD []).length ∧
    (P.problem_areas.getD []).length
        ≤ ((combine_team_info_logic (some P) Q).problem_areas.getD []).length ∧
    (P.relevant_players.getD []).length
        ≤ ((combine_team_info_logic (some P) Q).relevant_players.getD []).length :=
  ⟨mergeOptList_length_mono P.injuries Q.injuries,
   mergeOptList_length_mono P.strengths Q.strengths,
   mergeOptList_length_mono P.problem_areas Q.problem_areas,
   mergeOptList_length_mono P.relevant_players Q.relevant_players⟩

/-- C9 (amended): the merged list fields are duplicate-free whenever both
the old profile's and the incoming partial profile's list fields are
duplicate-free; the old profile's dedup alone does not suffice, because
internal repetitions of the new list are appended verbatim. -/
theorem merge_nodup_preserved_of (P Q : TeamInfo)
    (hPi : (P.injuries.getD []).Nodup) (hPs : (P.strengths.getD []).Nodup)
    (hPp : (P.problem_areas.getD []).Nodup) (hPr : (P.relevant_players.getD []).Nodup)
    (hQi : (Q.injuries.getD []).Nodup) (hQs : (Q.strengths.getD []).Nodup)
    (hQp : (Q.problem_areas.getD []).Nodup) (hQr : (Q.relevant_players.getD []).Nodup) :
    ((combine_team_info_logic (some P) Q).injuries.getD []).Nodup ∧
    ((combine_team_info_logic (some P) Q).strengths.getD []).Nodup ∧
    ((combine_team_info_logic (some P) Q).problem_areas.getD []).Nodup ∧
    ((combine_team_info_logic (some P) Q).relevant_players.getD []).Nodup :=
  ⟨mergeOptList_nodup _ _ hPi hQi, mergeOptList_nodup _ _ hPs hQs,
   mergeOptList_nodup _ _ hPp hQp, mergeOptList_nodup _ _ hPr hQr⟩

/-- Witness for C9 (amended), at two concrete duplicate-free profiles. -/
theorem merge_nodup_preserved_of_witness :
    ((combine_team_info_logic (some team_info_complete) partial_same_name).injuries.getD []).Nodup ∧
    ((combine_team_info_logic (some team_info_complete) partial_same_name).strengths.getD []).Nodup ∧
    ((combine_team_info_logic (some team_info_complete) partial_same_name).problem_areas.getD []).Nodup ∧
    ((combine_team_info_logic (some team_info_complete) partial_same_name).relevant_players.getD []).Nodup :=
  merge_nodup_preserved_of team_info_complete partial_same_name
    (by decide) (by decide) (by decide) (by decide)
    (by decide) (by decide) (by decide) (by decide)

/-- An accumulator whose four list fields are the duplicate-free ["A"]. -/
def profile_single : TeamInfo :=
  { name := "Eagles", coaching_summary := none, injuries := some ["A"],
    strengths := some ["A"], problem_areas := some ["A"],
    relevant_players := some ["A"] }

/-- A partial profile whose injuries list repeats "C" internally. -/
def partial_dup_injuries : TeamInfo :=
  { name := "Eagles", coaching_summary := none, injuries := some ["C", "C"],
    strengths := none, problem_areas := none, relevant_players := none }

/-- Counterexample to C9 as stated: all list fields of the old profile are
duplicate-free, yet merging a partial profile whose injuries list repeats
"C" yields ["A", "C", "C"], which contains a duplicate. -/
theorem merge_nodup_cex :
    (profile_single.injuries.getD []).Nodup ∧
    (profile_single.strengths.getD []).Nodup ∧
    (profile_single.problem_areas.getD []).Nodup ∧
    (profile_single.relevant_players.getD []).Nodup ∧
    (combine_team_info_logic (some profile_single) partial_dup_injuries).injuries
        = some ["A", "C", "C"] ∧
    ¬ ((combine_team_info_logic (some profile_single) partial_dup_injuries).injuries.getD []).Nodup := by
  refine ⟨by decide, by decide, by decide, by decide, by decide, by decide⟩
